import Mathlib

/-!
Verification of the NIGCOMSAT broadband-coverage dashboard (`src/app.py`)
against its natural-language specification.

The dashboard's logical core is embedded shallowly:

* a pandas `DataFrame` row becomes a `CoverageRecord`; a `DataFrame` becomes a
  `List CoverageRecord` (row order = list order);
* `np.random` draws become explicit parameters (`Draw`, jitter functions),
  constrained by hypotheses to the half-open ranges the numpy calls produce;
* Python floats become `ℚ`, Python ints become `ℤ`; `int(x)` on a nonnegative
  value is `Int.floor`;
* pandas `mean` on an empty frame yields NaN; this is modelled as `Option ℚ`
  with `none` playing the role of NaN, and NaN-propagating subtraction is
  `osub`;
* timestamps are modelled as integers (days); `datetime.now()` is a parameter.
-/

/-- One row of the dashboard's dataframe, with the column names of
`generate_sample_data` in `src/app.py`. -/
structure CoverageRecord where
  Region : String
  State : String
  Population : ℤ
  Coverage_Percentage : ℚ
  Connected_Users : ℤ
  Avg_Speed_Mbps : ℚ
  Latency_ms : ℚ
  Last_Update : ℤ
deriving DecidableEq

/-- The static region → states mapping of `generate_sample_data`. -/
def regions : List (String × List String) :=
  [("North Central", ["Benue", "Kogi", "Kwara", "Nasarawa", "Niger", "Plateau", "FCT"]),
   ("North East", ["Adamawa", "Bauchi", "Borno", "Gombe", "Taraba", "Yobe"]),
   ("North West", ["Jigawa", "Kaduna", "Kano", "Katsina", "Kebbi", "Sokoto", "Zamfara"]),
   ("South East", ["Abia", "Anambra", "Ebonyi", "Enugu", "Imo"]),
   ("South South", ["Akwa Ibom", "Bayelsa", "Cross River", "Delta", "Edo", "Rivers"]),
   ("South West", ["Ekiti", "Lagos", "Ogun", "Ondo", "Osun", "Oyo"])]

/-- The (region, state) pairs in the order the two nested loops of
`generate_sample_data` visit them. -/
def regionStatePairs : List (String × String) :=
  regions.flatMap (fun rs => rs.2.map (fun s => (rs.1, s)))

/-- The random draws one loop iteration of `generate_sample_data` consumes. -/
structure Draw where
  population : ℤ
  coverage : ℚ
  speed : ℚ
  latency : ℚ
  days : ℤ

/-- The ranges the numpy calls guarantee: `randint(500000, 8000000)`,
`uniform(20, 95)`, `uniform(5, 50)`, `uniform(20, 150)`, `randint(0, 30)`
(all half-open). -/
def Draw.InRange (d : Draw) : Prop :=
  500000 ≤ d.population ∧ d.population < 8000000 ∧
  20 ≤ d.coverage ∧ d.coverage < 95 ∧
  5 ≤ d.speed ∧ d.speed < 50 ∧
  20 ≤ d.latency ∧ d.latency < 150 ∧
  0 ≤ d.days ∧ d.days < 30

instance (d : Draw) : Decidable d.InRange := by
  unfold Draw.InRange
  infer_instance

/-- One record built in the loop body of `generate_sample_data`:
`connected_users = int(population * (coverage_percentage / 100))` and
`Last_Update = now - timedelta(days)`. -/
def mkRecord (now : ℤ) (region state : String) (d : Draw) : CoverageRecord :=
  { Region := region
    State := state
    Population := d.population
    Coverage_Percentage := d.coverage
    Connected_Users := ⌊(d.population : ℚ) * (d.coverage / 100)⌋
    Avg_Speed_Mbps := d.speed
    Latency_ms := d.latency
    Last_Update := now - d.days }

/-- The loop of `generate_sample_data`, with `i` the index of the next record
(each iteration consumes one `Draw`). -/
def buildRecords (now : ℤ) (draw : Nat → Draw) : Nat → List (String × String) → List CoverageRecord
  | _, [] => []
  | i, p :: rest => mkRecord now p.1 p.2 (draw i) :: buildRecords now draw (i + 1) rest

/-- The embedded `generate_sample_data`: a dataframe of one record per
(region, state) pair, with the random source made explicit. -/
def generate_sample_data (now : ℤ) (draw : Nat → Draw) : List CoverageRecord :=
  buildRecords now draw 0 regionStatePairs

/-- Lines 109-113 of `src/app.py`: copy the dataframe, keep only the selected
region unless "All Regions" is selected, then keep rows with
`Coverage_Percentage >= coverage_threshold`. -/
def filter_data (df : List CoverageRecord) (selected_region : String)
    (coverage_threshold : ℚ) : List CoverageRecord :=
  let f1 := if selected_region ≠ "All Regions"
    then df.filter (fun r => r.Region == selected_region)
    else df
  f1.filter (fun r => coverage_threshold ≤ r.Coverage_Percentage)

/-- A concrete record used to instantiate witness theorems. -/
def sampleRecord : CoverageRecord :=
  { Region := "North Central"
    State := "Benue"
    Population := 1000000
    Coverage_Percentage := 50
    Connected_Users := 500000
    Avg_Speed_Mbps := 20
    Latency_ms := 60
    Last_Update := 0 }

/-- A second concrete record (different region, low coverage) for witnesses. -/
def sampleRecord2 : CoverageRecord :=
  { Region := "South West"
    State := "Lagos"
    Population := 8000000
    Coverage_Percentage := 30
    Connected_Users := 2400000
    Avg_Speed_Mbps := 45
    Latency_ms := 25
    Last_Update := 3 }

/-- A concrete in-range draw, to instantiate witnesses. -/
def sampleDraw : Draw :=
  { population := 600000, coverage := 50, speed := 20, latency := 60, days := 3 }

/-- A constant stream of one in-range draw, to instantiate witnesses. -/
def constDraw : Nat → Draw :=
  fun _ => sampleDraw

/-- pandas `Series.mean`: NaN on an empty column (modelled as `none`),
sum divided by length otherwise. -/
def mean (xs : List ℚ) : Option ℚ :=
  if xs.length = 0 then none else some (xs.sum / xs.length)

/-- Line 120 of `src/app.py`: `filtered_df['Coverage_Percentage'].mean()`. -/
def avgCoverage (df : List CoverageRecord) : Option ℚ :=
  mean (df.map (fun r => r.Coverage_Percentage))

/-- Line 128 of `src/app.py`: `filtered_df['Connected_Users'].sum()`
(pandas sum of an empty column is 0). -/
def totalUsers (df : List CoverageRecord) : ℤ :=
  (df.map (fun r => r.Connected_Users)).sum

/-- Line 136 of `src/app.py`: `filtered_df['Avg_Speed_Mbps'].mean()`. -/
def avgSpeed (df : List CoverageRecord) : Option ℚ :=
  mean (df.map (fun r => r.Avg_Speed_Mbps))

/-- Line 144 of `src/app.py`: `filtered_df['Latency_ms'].mean()`. -/
def avgLatency (df : List CoverageRecord) : Option ℚ :=
  mean (df.map (fun r => r.Latency_ms))

/-- Subtraction on possibly-undefined means; NaN (`none`) propagates, as float
NaN does in the Python delta expressions. -/
def osub (a b : Option ℚ) : Option ℚ :=
  match a, b with
  | some x, some y => some (x - y)
  | _, _ => none

/-- The four value/delta pairs of the `st.metric` blocks. -/
structure MetricsBlock where
  coverage_value : Option ℚ
  coverage_delta : Option ℚ
  users_value : ℤ
  users_delta : ℚ
  speed_value : Option ℚ
  speed_delta : Option ℚ
  latency_value : Option ℚ
  latency_delta : Option ℚ
deriving DecidableEq

/-- Lines 119-150 of `src/app.py`: the four key metrics over the filtered
frame with their deltas; note the users delta is `total_users / 1000000`,
while the other three deltas subtract the unfiltered mean. -/
def key_metrics (df filtered : List CoverageRecord) : MetricsBlock :=
  { coverage_value := avgCoverage filtered
    coverage_delta := osub (avgCoverage filtered) (avgCoverage df)
    users_value := totalUsers filtered
    users_delta := (totalUsers filtered : ℚ) / 1000000
    speed_value := avgSpeed filtered
    speed_delta := osub (avgSpeed filtered) (avgSpeed df)
    latency_value := avgLatency filtered
    latency_delta := osub (avgLatency filtered) (avgLatency df) }

/-- Written from the spec's words for C3: the delta paired with a mean metric
is that metric over the filtered set minus the same metric over the
unfiltered full dataset. -/
def mean_delta_spec (m : List CoverageRecord → Option ℚ)
    (df filtered : List CoverageRecord) : Option ℚ :=
  osub (m filtered) (m df)

/-- Written from the spec's words for C3: the delta paired with the
connected-users sum is the filtered sum minus the unfiltered sum. -/
def users_delta_spec (df filtered : List CoverageRecord) : ℚ :=
  (totalUsers filtered : ℚ) - (totalUsers df : ℚ)

/-- Column order of the dataframe built by `generate_sample_data` (dict
insertion order), which `df.copy()` and boolean-mask filtering preserve. -/
def dfColumns : List String :=
  ["Region", "State", "Population", "Coverage_Percentage", "Connected_Users",
   "Avg_Speed_Mbps", "Latency_ms", "Last_Update"]

/-- The column list the spec claims for the CSV export (no Population). -/
def specCsvColumns : List String :=
  ["Region", "State", "Coverage_Percentage", "Connected_Users",
   "Avg_Speed_Mbps", "Latency_ms", "Last_Update"]

/-- Cell values of one CSV data row, in dataframe column order (numeric and
timestamp cells via their default textual rendering). -/
def recordCells (r : CoverageRecord) : List String :=
  [r.Region, r.State, toString r.Population, toString r.Coverage_Percentage,
   toString r.Connected_Users, toString r.Avg_Speed_Mbps, toString r.Latency_ms,
   toString r.Last_Update]

/-- One comma-separated CSV line. -/
def csvLine (cells : List String) : String :=
  String.intercalate "," cells

/-- Line 286 of `src/app.py`: `filtered_df.to_csv(index=False)` as the list of
its lines: a header line, then one line per record in frame order. -/
def to_csv (df : List CoverageRecord) : List String :=
  csvLine dfColumns :: df.map (fun r => csvLine (recordCells r))

/-- Line 290 of `src/app.py`: the export filename built from the current date
rendered as `%Y%m%d`. -/
def export_file_name (yyyymmdd : String) : String :=
  "nigcomsat_coverage_" ++ yyyymmdd ++ ".csv"

/-- Keys of a pandas groupby on Region: the distinct region values of the
frame (group order is irrelevant to the claims). -/
def groupKeys (df : List CoverageRecord) : List String :=
  (df.map (fun r => r.Region)).dedup

/-- Line 232 of `src/app.py`:
`filtered_df.groupby('Region')['Connected_Users'].sum()` — the mapping from
each region present in the frame to the sum of its Connected_Users. -/
def regional_users (df : List CoverageRecord) : List (String × ℤ) :=
  (groupKeys df).map (fun k =>
    (k, ((df.filter (fun r => r.Region == k)).map (fun r => r.Connected_Users)).sum))

/-- Lines 161-168 of `src/app.py`: the static region → centroid table. -/
def nigeria_coords : List (String × ℚ × ℚ) :=
  [("North Central", (8.5, 8)),
   ("North East", (10.5, 12.5)),
   ("North West", (12, 8)),
   ("South East", (5.5, 7.5)),
   ("South South", (5, 6)),
   ("South West", (7, 4))]

/-- A filtered record with the lat/lon columns the map view adds. -/
structure MapRecord where
  base : CoverageRecord
  lat : ℚ
  lon : ℚ
deriving DecidableEq

/-- The per-row coordinate assignment of lines 172-173 of `src/app.py`, with
`i` the row index and the uniform jitter draws made explicit; a region missing
from the centroid table would be a Python KeyError, modelled as `none`. -/
def map_df_aux (jlat jlon : Nat → ℚ) : Nat → List CoverageRecord → Option (List MapRecord)
  | _, [] => some []
  | i, r :: rest =>
    match nigeria_coords.lookup r.Region with
    | some c =>
      match map_df_aux jlat jlon (i + 1) rest with
      | some ms => some ({ base := r, lat := c.1 + jlat i, lon := c.2 + jlon i } :: ms)
      | none => none
    | none => none

/-- Lines 171-173 of `src/app.py`: `map_df = filtered_df.copy()` plus the two
jittered coordinate columns. -/
def map_df (jlat jlon : Nat → ℚ) (df : List CoverageRecord) : Option (List MapRecord) :=
  map_df_aux jlat jlon 0 df

/-- A row of the raw-data table view: the seven displayed columns. -/
structure DisplayRow where
  Region : String
  State : String
  Coverage_Percentage : ℚ
  Connected_Users : ℤ
  Avg_Speed_Mbps : ℚ
  Latency_ms : ℚ
  Last_Update : ℤ
deriving DecidableEq

/-- The column projection of lines 278-281 of `src/app.py`. -/
def displayProj (r : CoverageRecord) : DisplayRow :=
  { Region := r.Region
    State := r.State
    Coverage_Percentage := r.Coverage_Percentage
    Connected_Users := r.Connected_Users
    Avg_Speed_Mbps := r.Avg_Speed_Mbps
    Latency_ms := r.Latency_ms
    Last_Update := r.Last_Update }

/-- The comparison `sort_values('Coverage_Percentage', ascending=False)`
sorts by: a row precedes another when its coverage is at least as large. -/
def coverageDesc (a b : DisplayRow) : Bool :=
  decide (b.Coverage_Percentage ≤ a.Coverage_Percentage)

/-- Lines 277-283 of `src/app.py`: the raw-data table, projected to the seven
display columns and sorted by Coverage_Percentage descending. -/
def raw_data_view (df : List CoverageRecord) : List DisplayRow :=
  (df.map displayProj).mergeSort coverageDesc

/-- A concrete jitter stream within [-1, 1), for the C9 witness. -/
def jitterA : Nat → ℚ :=
  fun _ => 1 / 2

/-- A second concrete jitter stream within [-1, 1), for the C9 witness. -/
def jitterB : Nat → ℚ :=
  fun _ => -1 / 2

/-- Membership characterization of `filter_data` (helper shared by several
claims). -/
lemma mem_filter_data (df : List CoverageRecord) (sel : String) (mc : ℚ)
    (r : CoverageRecord) :
    r ∈ filter_data df sel mc ↔
      r ∈ df ∧ mc ≤ r.Coverage_Percentage ∧ (sel = "All Regions" ∨ r.Region = sel) := by
  unfold filter_data
  by_cases h : sel = "All Regions"
  · simp [h, List.mem_filter]
  · simp [h, List.mem_filter]

/-- Sublist property of `filter_data` (helper shared by several claims). -/
lemma filter_data_sub (df : List CoverageRecord) (sel : String) (mc : ℚ) :
    (filter_data df sel mc).Sublist df := by
  unfold filter_data
  by_cases h : sel = "All Regions"
  · rw [h, if_neg (by simp)]
    exact List.filter_sublist df
  · rw [if_pos (by simpa using h)]
    exact (List.filter_sublist _).trans (List.filter_sublist df)

/-- C1: a record is in the output of the filter iff it is in the input,
its coverage_percentage is at least min_coverage, and either the selector is
"All Regions" or its region equals the selector; so every output record
satisfies both conditions and records failing either one are excluded. -/
theorem filter_data_mem_iff (df : List CoverageRecord) (sel : String) (mc : ℚ)
    (r : CoverageRecord) :
    r ∈ filter_data df sel mc ↔
      r ∈ df ∧ mc ≤ r.Coverage_Percentage ∧ (sel = "All Regions" ∨ r.Region = sel) :=
  mem_filter_data df sel mc r

/-- C7: the filter output is a sublist (stable subsequence) of the input;
in particular an empty output is a legal value of the total function. -/
theorem filter_data_sublist (df : List CoverageRecord) (sel : String) (mc : ℚ) :
    (filter_data df sel mc).Sublist df :=
  filter_data_sub df sel mc

/-- C6: filtering with selector "All Regions" and threshold 0 is the identity
on any dataset whose records all have nonnegative coverage (as all generated
records do). -/
theorem filter_data_all_regions_zero (df : List CoverageRecord)
    (h : ∀ r ∈ df, 0 ≤ r.Coverage_Percentage) :
    filter_data df "All Regions" 0 = df := by
  unfold filter_data
  rw [if_neg (by simp)]
  exact List.filter_eq_self.mpr (fun r hr => by simpa using h r hr)

/-- Witness for C6 at a concrete two-record dataset. -/
theorem filter_data_all_regions_zero_witness :
    (∀ r ∈ [sampleRecord, sampleRecord2], 0 ≤ r.Coverage_Percentage) ∧
      filter_data [sampleRecord, sampleRecord2] "All Regions" 0 =
        [sampleRecord, sampleRecord2] :=
  ⟨by decide, filter_data_all_regions_zero _ (by decide)⟩

/-- Every record produced by the generator loop comes from `mkRecord` applied
to some (region, state) pair of the worklist and some draw index. -/
lemma mem_buildRecords {now : ℤ} {draw : Nat → Draw} :
    ∀ {i : Nat} {ps : List (String × String)} {r : CoverageRecord},
      r ∈ buildRecords now draw i ps →
      ∃ (j : Nat) (p : String × String), p ∈ ps ∧ r = mkRecord now p.1 p.2 (draw j) := by
  intro i ps
  induction ps generalizing i with
  | nil => intro r hr; simp [buildRecords] at hr
  | cons p rest ih =>
    intro r hr
    simp only [buildRecords, List.mem_cons] at hr
    rcases hr with h | h
    · exact ⟨i, p, List.mem_cons_self p rest, h⟩
    · obtain ⟨j, q, hq, hr⟩ := ih h
      exact ⟨j, q, List.mem_cons_of_mem p hq, hr⟩

/-- Numeric invariants of a single generated record, given in-range draws:
`int(population * coverage/100) ≤ population` and the sampled ranges. -/
lemma mkRecord_bounds (now : ℤ) (region state : String) (d : Draw) (hd : d.InRange) :
    (mkRecord now region state d).Connected_Users ≤ (mkRecord now region state d).Population ∧
    20 ≤ (mkRecord now region state d).Coverage_Percentage ∧
    (mkRecord now region state d).Coverage_Percentage < 95 ∧
    500000 ≤ (mkRecord now region state d).Population ∧
    (mkRecord now region state d).Population < 8000000 ∧
    5 ≤ (mkRecord now region state d).Avg_Speed_Mbps ∧
    (mkRecord now region state d).Avg_Speed_Mbps < 50 ∧
    20 ≤ (mkRecord now region state d).Latency_ms ∧
    (mkRecord now region state d).Latency_ms < 150 := by
  obtain ⟨hp1, hp2, hc1, hc2, hs1, hs2, hl1, hl2, _, _⟩ := hd
  refine ⟨?_, hc1, hc2, hp1, hp2, hs1, hs2, hl1, hl2⟩
  show ⌊(d.population : ℚ) * (d.coverage / 100)⌋ ≤ d.population
  have hp0 : (0 : ℚ) ≤ (d.population : ℚ) := by
    have : (0 : ℤ) ≤ d.population := le_trans (by norm_num) hp1
    exact_mod_cast this
  have hle : (d.population : ℚ) * (d.coverage / 100) ≤ (d.population : ℚ) := by
    nlinarith
  calc ⌊(d.population : ℚ) * (d.coverage / 100)⌋
      ≤ ⌊(d.population : ℚ)⌋ := Int.floor_le_floor hle
    _ = d.population := Int.floor_intCast d.population

/-- Shape and numeric invariants of the full generated dataset (helper). -/
lemma generate_invariants (now : ℤ) (draw : Nat → Draw)
    (h : ∀ i, (draw i).InRange) :
    (generate_sample_data now draw).length = 37 ∧
    (generate_sample_data now draw).map (fun r => (r.Region, r.State)) = regionStatePairs ∧
    ∀ r ∈ generate_sample_data now draw,
      r.Connected_Users ≤ r.Population ∧
      20 ≤ r.Coverage_Percentage ∧ r.Coverage_Percentage < 95 ∧
      500000 ≤ r.Population ∧ r.Population < 8000000 ∧
      5 ≤ r.Avg_Speed_Mbps ∧ r.Avg_Speed_Mbps < 50 ∧
      20 ≤ r.Latency_ms ∧ r.Latency_ms < 150 := by
  refine ⟨rfl, rfl, ?_⟩
  intro r hr
  obtain ⟨j, p, _, rfl⟩ := mem_buildRecords hr
  exact mkRecord_bounds now p.1 p.2 (draw j) (h j)

/-- C4: every generated dataset has exactly 37 records, with the fixed
region-to-state pairing, and in every record connected_users ≤ population,
coverage_percentage ∈ [20, 95), population ∈ [500000, 8000000),
avg_speed ∈ [5, 50) and latency ∈ [20, 150), for all in-range draws. -/
theorem generate_sample_data_invariants (now : ℤ) (draw : Nat → Draw)
    (h : ∀ i, (draw i).InRange) :
    (generate_sample_data now draw).length = 37 ∧
    (generate_sample_data now draw).map (fun r => (r.Region, r.State)) = regionStatePairs ∧
    ∀ r ∈ generate_sample_data now draw,
      r.Connected_Users ≤ r.Population ∧
      20 ≤ r.Coverage_Percentage ∧ r.Coverage_Percentage < 95 ∧
      500000 ≤ r.Population ∧ r.Population < 8000000 ∧
      5 ≤ r.Avg_Speed_Mbps ∧ r.Avg_Speed_Mbps < 50 ∧
      20 ≤ r.Latency_ms ∧ r.Latency_ms < 150 :=
  generate_invariants now draw h

/-- Witness for C4 at the constant in-range draw stream. -/
theorem generate_sample_data_invariants_witness :
    (∀ i, (constDraw i).InRange) ∧
    ((generate_sample_data 0 constDraw).length = 37 ∧
    (generate_sample_data 0 constDraw).map (fun r => (r.Region, r.State)) = regionStatePairs ∧
    ∀ r ∈ generate_sample_data 0 constDraw,
      r.Connected_Users ≤ r.Population ∧
      20 ≤ r.Coverage_Percentage ∧ r.Coverage_Percentage < 95 ∧
      500000 ≤ r.Population ∧ r.Population < 8000000 ∧
      5 ≤ r.Avg_Speed_Mbps ∧ r.Avg_Speed_Mbps < 50 ∧
      20 ≤ r.Latency_ms ∧ r.Latency_ms < 150) :=
  ⟨fun i => by show sampleDraw.InRange; decide,
   generate_sample_data_invariants 0 constDraw (fun i => by show sampleDraw.InRange; decide)⟩

/-- C5: filtering any generated dataset with min_coverage = 100 yields the
empty list (every generated coverage is below 95), and the four summary
metrics on the empty filtered set are defined: the means degrade to the
NaN value (`none`) and the sum degrades to 0. -/
theorem filter_hundred_empty (now : ℤ) (draw : Nat → Draw) (sel : String)
    (h : ∀ i, (draw i).InRange) :
    filter_data (generate_sample_data now draw) sel 100 = [] ∧
    avgCoverage (filter_data (generate_sample_data now draw) sel 100) = none ∧
    totalUsers (filter_data (generate_sample_data now draw) sel 100) = 0 ∧
    avgSpeed (filter_data (generate_sample_data now draw) sel 100) = none ∧
    avgLatency (filter_data (generate_sample_data now draw) sel 100) = none := by
  have hempty : filter_data (generate_sample_data now draw) sel 100 = [] := by
    cases hfe : filter_data (generate_sample_data now draw) sel 100 with
    | nil => rfl
    | cons a l =>
      exfalso
      have ha : a ∈ filter_data (generate_sample_data now draw) sel 100 := by
        rw [hfe]; exact List.mem_cons_self a l
      have hmem := (mem_filter_data _ _ _ _).mp ha
      have hlt := ((generate_invariants now draw h).2.2 a hmem.1).2.2.1
      have hge := hmem.2.1
      linarith
  refine ⟨hempty, ?_, ?_, ?_, ?_⟩ <;> rw [hempty] <;> rfl

/-- Witness for C5 at the constant in-range draw stream. -/
theorem filter_hundred_empty_witness :
    (∀ i, (constDraw i).InRange) ∧
    (filter_data (generate_sample_data 0 constDraw) "All Regions" 100 = [] ∧
    avgCoverage (filter_data (generate_sample_data 0 constDraw) "All Regions" 100) = none ∧
    totalUsers (filter_data (generate_sample_data 0 constDraw) "All Regions" 100) = 0 ∧
    avgSpeed (filter_data (generate_sample_data 0 constDraw) "All Regions" 100) = none ∧
    avgLatency (filter_data (generate_sample_data 0 constDraw) "All Regions" 100) = none) :=
  ⟨fun i => by show sampleDraw.InRange; decide,
   filter_hundred_empty 0 constDraw "All Regions" (fun i => by show sampleDraw.InRange; decide)⟩

/-- C3 counterexample: on a concrete one-record dataset with the identity
filter, the connected-users delta displayed by the code (the filtered total
divided by 1000000) is not the filtered total minus the unfiltered total. -/
theorem users_delta_not_baseline :
    (key_metrics [sampleRecord] (filter_data [sampleRecord] "All Regions" 0)).users_delta
      ≠ users_delta_spec [sampleRecord] (filter_data [sampleRecord] "All Regions" 0) := by
  have h : filter_data [sampleRecord] "All Regions" 0 = [sampleRecord] := by decide
  rw [h]
  simp only [key_metrics, users_delta_spec, totalUsers, sampleRecord, List.map_cons,
    List.map_nil, List.sum_cons, List.sum_nil]
  norm_num

/-- C3 (amended): the mean coverage, mean speed and mean latency metrics are
each paired with a delta equal to the metric over the filtered set minus the
same metric over the unfiltered dataset, but the connected-users sum is paired
with the filtered total divided by 1000000 (the total in millions), which does
not reference the unfiltered baseline. -/
theorem key_metrics_deltas (df : List CoverageRecord) (sel : String) (mc : ℚ) :
    (key_metrics df (filter_data df sel mc)).coverage_delta
        = mean_delta_spec avgCoverage df (filter_data df sel mc) ∧
    (key_metrics df (filter_data df sel mc)).speed_delta
        = mean_delta_spec avgSpeed df (filter_data df sel mc) ∧
    (key_metrics df (filter_data df sel mc)).latency_delta
        = mean_delta_spec avgLatency df (filter_data df sel mc) ∧
    (key_metrics df (filter_data df sel mc)).users_delta
        = (totalUsers (filter_data df sel mc) : ℚ) / 1000000 :=
  ⟨rfl, rfl, rfl, rfl⟩

/-- C2 counterexample: the header line of the exported CSV of a concrete
filtered set is not the seven-column header the spec claims (the export keeps
the Population column), and the dataframe column list differs from the claimed
one. -/
theorem to_csv_missing_population :
    (to_csv (filter_data [sampleRecord] "All Regions" 0)).head?
      ≠ some (csvLine specCsvColumns) ∧
    dfColumns ≠ specCsvColumns := by
  decide

/-- C2 (amended): the CSV export of the filtered set has a header in the
stable dataframe column order Region, State, Population, Coverage_Percentage,
Connected_Users, Avg_Speed_Mbps, Latency_ms, Last_Update, one comma-separated
row per filtered record in frame order (each with exactly one cell per
column), and the filename is nigcomsat_coverage_<YYYYMMDD>.csv for the
current date. -/
theorem to_csv_format (df : List CoverageRecord) (sel : String) (mc : ℚ) (d : String) :
    to_csv (filter_data df sel mc)
        = csvLine dfColumns ::
            (filter_data df sel mc).map (fun r => csvLine (recordCells r)) ∧
    (to_csv (filter_data df sel mc)).length = (filter_data df sel mc).length + 1 ∧
    (∀ r : CoverageRecord, (recordCells r).length = dfColumns.length) ∧
    export_file_name d = "nigcomsat_coverage_" ++ d ++ ".csv" := by
  refine ⟨rfl, ?_, fun r => rfl, rfl⟩
  simp [to_csv]

/-- Splitting a mapped sum along a Boolean predicate (helper for the
group-by total). -/
lemma sum_filter_split (p : CoverageRecord → Bool) (f : CoverageRecord → ℤ)
    (l : List CoverageRecord) :
    ((l.filter p).map f).sum + ((l.filter (fun r => !(p r))).map f).sum
      = (l.map f).sum := by
  induction l with
  | nil => simp
  | cons a l ih =>
    by_cases hp : p a
    · simp only [List.filter_cons, hp, Bool.not_true, if_true, List.map_cons, List.sum_cons]
      simp only [Bool.false_eq_true, if_false]
      linarith [ih]
    · have hp' : p a = false := by simpa using hp
      simp only [List.filter_cons, hp', Bool.not_false, if_true, List.map_cons, List.sum_cons]
      simp only [Bool.false_eq_true, if_false]
      linarith [ih]

/-- Summing per-key filtered sums over a duplicate-free key list covering all
rows gives the total sum (helper for the group-by total). -/
lemma sum_over_keys (f : CoverageRecord → ℤ) :
    ∀ (keys : List String) (l : List CoverageRecord), keys.Nodup →
      (∀ r ∈ l, r.Region ∈ keys) →
      (keys.map (fun k => ((l.filter (fun r => r.Region == k)).map f).sum)).sum
        = (l.map f).sum := by
  intro keys
  induction keys with
  | nil =>
    intro l _ hl
    cases l with
    | nil => simp
    | cons a l => exact absurd (hl a (List.mem_cons_self a l)) (List.not_mem_nil _)
  | cons k ks ih =>
    intro l hnd hl
    have hk_not : k ∉ ks := (List.nodup_cons.mp hnd).1
    have hnd' : ks.Nodup := (List.nodup_cons.mp hnd).2
    simp only [List.map_cons, List.sum_cons]
    have hrest :
        (ks.map (fun q => ((l.filter (fun r => r.Region == q)).map f).sum))
          = ks.map (fun q =>
              (((l.filter (fun r => !(r.Region == k))).filter
                  (fun r => r.Region == q)).map f).sum) := by
      apply List.map_congr_left
      intro q hq
      have hqk : q ≠ k := fun h => hk_not (h ▸ hq)
      have hfil : l.filter (fun r => r.Region == q)
          = (l.filter (fun r => !(r.Region == k))).filter (fun r => r.Region == q) := by
        rw [List.filter_filter]
        apply List.filter_congr
        intro r _
        by_cases hr : r.Region = q
        · simp [hr, hqk]
        · simp [hr]
      rw [hfil]
    rw [hrest]
    rw [ih (l.filter (fun r => !(r.Region == k))) hnd' ?_]
    · exact sum_filter_split (fun r => r.Region == k) f l
    · intro r hr
      have hrl : r ∈ l := List.mem_of_mem_filter hr
      have hrk : ¬(r.Region == k) := by
        have := List.of_mem_filter hr
        simpa using this
      have hmem := hl r hrl
      rcases List.mem_cons.mp hmem with h | h
      · exact absurd (by simpa using h) hrk
      · exact h

/-- Every region of a row of the frame is a group key, and the keys are
duplicate-free (helper). -/
lemma region_mem_groupKeys (df : List CoverageRecord) :
    (groupKeys df).Nodup ∧ ∀ r ∈ df, r.Region ∈ groupKeys df := by
  constructor
  · exact List.nodup_dedup _
  · intro r hr
    exact List.mem_dedup.mpr (List.mem_map.mpr ⟨r, hr, rfl⟩)

/-- C8: over any filtered record set, the per-region connected-users sums of
the group-by aggregation add up to the connected-users sum of the whole
filtered set, and a region appears among the aggregation keys iff some
surviving record has that region (so empty regions are absent). -/
theorem regional_users_total (df : List CoverageRecord) (sel : String) (mc : ℚ) :
    ((regional_users (filter_data df sel mc)).map (fun p => p.2)).sum
      = totalUsers (filter_data df sel mc) ∧
    ∀ k : String,
      (k ∈ (regional_users (filter_data df sel mc)).map (fun p => p.1) ↔
        ∃ r ∈ filter_data df sel mc, r.Region = k) := by
  constructor
  · have h := region_mem_groupKeys (filter_data df sel mc)
    have := sum_over_keys (fun r => r.Connected_Users) (groupKeys (filter_data df sel mc))
      (filter_data df sel mc) h.1 h.2
    simpa [regional_users, totalUsers, Function.comp] using this
  · intro k
    simp [regional_users, groupKeys, List.mem_dedup, List.mem_map]

/-- Structure of the map rows produced by `map_df_aux`, for any start index:
every centroid lookup succeeds, each row keeps its record unchanged and gets
the looked-up centroid plus the row's jitter draw (helper for C9). -/
lemma map_df_aux_spec (jlat jlon : Nat → ℚ) :
    ∀ (l : List CoverageRecord) (i : Nat),
      (∀ r ∈ l, (nigeria_coords.lookup r.Region).isSome) →
      ∃ ms, map_df_aux jlat jlon i l = some ms ∧
        ms.map (fun m => m.base) = l ∧
        List.Forall₂ (fun (p : Nat × CoverageRecord) (m : MapRecord) =>
          ∃ c, nigeria_coords.lookup p.2.Region = some c ∧
            m.lat = c.1 + jlat p.1 ∧ m.lon = c.2 + jlon p.1)
          (List.enumFrom i l) ms := by
  intro l
  induction l with
  | nil => exact fun i _ => ⟨[], rfl, rfl, List.Forall₂.nil⟩
  | cons r rest ih =>
    intro i hl
    have hr := hl r (List.mem_cons_self r rest)
    obtain ⟨c, hc⟩ := Option.isSome_iff_exists.mp hr
    obtain ⟨ms, hms, hbase, hfa⟩ := ih (i + 1) (fun x hx => hl x (List.mem_cons_of_mem r hx))
    refine ⟨{ base := r, lat := c.1 + jlat i, lon := c.2 + jlon i } :: ms, ?_, ?_, ?_⟩
    · simp [map_df_aux, hc, hms]
    · simp [hbase]
    · rw [List.enumFrom_cons]
      exact List.Forall₂.cons ⟨c, hc, rfl, rfl⟩ hfa

/-- C9: on any filtered set whose regions all appear in the six-entry centroid
table, the geo-jitter projection succeeds and yields one map row per filtered
record in order; each row's record part is the filtered record unchanged (the
projection works on a copy, leaving the filtered data intact), and its lat/lon
equal the region centroid plus that row's jitter draw, which lies within
[-1, 1] degrees whenever the draws are uniform in [-1, 1). -/
theorem map_df_spec (jlat jlon : Nat → ℚ) (df : List CoverageRecord) (sel : String)
    (mc : ℚ)
    (hreg : ∀ r ∈ filter_data df sel mc, (nigeria_coords.lookup r.Region).isSome)
    (hjlat : ∀ i, -1 ≤ jlat i ∧ jlat i < 1) (hjlon : ∀ i, -1 ≤ jlon i ∧ jlon i < 1) :
    ∃ ms, map_df jlat jlon (filter_data df sel mc) = some ms ∧
      ms.map (fun m => m.base) = filter_data df sel mc ∧
      List.Forall₂ (fun (p : Nat × CoverageRecord) (m : MapRecord) =>
        ∃ c, nigeria_coords.lookup p.2.Region = some c ∧
          m.lat = c.1 + jlat p.1 ∧ m.lon = c.2 + jlon p.1 ∧
          -1 ≤ m.lat - c.1 ∧ m.lat - c.1 ≤ 1 ∧ -1 ≤ m.lon - c.2 ∧ m.lon - c.2 ≤ 1)
        (List.enumFrom 0 (filter_data df sel mc)) ms := by
  obtain ⟨ms, h1, h2, h3⟩ := map_df_aux_spec jlat jlon (filter_data df sel mc) 0 hreg
  refine ⟨ms, h1, h2, ?_⟩
  apply List.Forall₂.imp ?_ h3
  intro p m hm
  obtain ⟨c, hc, hlat, hlon⟩ := hm
  have ha := hjlat p.1
  have hb := hjlon p.1
  refine ⟨c, hc, hlat, hlon, ?_, ?_, ?_, ?_⟩
  · rw [hlat]; linarith [ha.1]
  · rw [hlat]; linarith [ha.2]
  · rw [hlon]; linarith [hb.1]
  · rw [hlon]; linarith [hb.2]

/-- C10: the raw-data table view is the filtered set projected to the seven
display columns and sorted by Coverage_Percentage descending: it is a
permutation of the projected filtered set (no row added, dropped or modified)
and is pairwise nonincreasing in coverage, for every filtered set including
the empty one. -/
theorem raw_data_view_perm_sorted (df : List CoverageRecord) (sel : String) (mc : ℚ) :
    (raw_data_view (filter_data df sel mc)).Perm
        ((filter_data df sel mc).map displayProj) ∧
    List.Pairwise (fun a b => b.Coverage_Percentage ≤ a.Coverage_Percentage)
      (raw_data_view (filter_data df sel mc)) := by
  constructor
  · exact List.mergeSort_perm _ _
  · have h : List.Pairwise (fun a b => coverageDesc a b = true)
        (((filter_data df sel mc).map displayProj).mergeSort coverageDesc) := by
      apply List.sorted_mergeSort
      · intro a b c hab hbc
        simp only [coverageDesc, decide_eq_true_eq] at *
        linarith
      · intro a b
        simp only [coverageDesc, Bool.or_eq_true, decide_eq_true_eq]
        exact le_total _ _
    exact h.imp (fun hab => by simpa [coverageDesc] using hab)

/-- Witness for C9 at a concrete one-record filtered set and concrete jitter
draws. -/
theorem map_df_spec_witness :
    ∃ ms, map_df jitterA jitterB (filter_data [sampleRecord] "All Regions" 0) = some ms ∧
      ms.map (fun m => m.base) = filter_data [sampleRecord] "All Regions" 0 ∧
      List.Forall₂ (fun (p : Nat × CoverageRecord) (m : MapRecord) =>
        ∃ c, nigeria_coords.lookup p.2.Region = some c ∧
          m.lat = c.1 + jitterA p.1 ∧ m.lon = c.2 + jitterB p.1 ∧
          -1 ≤ m.lat - c.1 ∧ m.lat - c.1 ≤ 1 ∧ -1 ≤ m.lon - c.2 ∧ m.lon - c.2 ≤ 1)
        (List.enumFrom 0 (filter_data [sampleRecord] "All Regions" 0)) ms :=
  map_df_spec jitterA jitterB [sampleRecord] "All Regions" 0
    (by decide)
    (fun i => by show (-1 : ℚ) ≤ 1 / 2 ∧ (1 : ℚ) / 2 < 1; norm_num)
    (fun i => by show (-1 : ℚ) ≤ -1 / 2 ∧ (-1 : ℚ) / 2 < 1; norm_num)
